import Mathlib

/-!
# profiler_app.go: workload generator and CPU-profile recorder

A shallow embedding of `trace-examples/go/profiler_app.go`.  Every Go function
of the file becomes a state transformer of the same name.  The state carries
the stack of active functions, the deferred calls of `main`, the resources the
program touches (the profile file, the CPU-profile session), the exit status
and an instrumentation trace: each observable step is recorded together with
the call stack that was active when it happened.

The two calls whose result depends on the environment (`os.Create` and
`pprof.StartCPUProfile`) read their result from an `Env`; so does the width of
Go's `int`.
-/

namespace ProfilerApp

/-! ## Data model -/

/-- The functions declared in profiler_app.go. -/
inductive Func
  | innerFunctionA1
  | innerFunctionA2
  | middleFunctionA
  | innerFunctionB1
  | middleFunctionB
  | outerFunction
  | main
  deriving DecidableEq, Repr

/-- One observable step of the program. -/
inductive Action
  /-- A function was entered. -/
  | enter (f : Func)
  /-- A function returned to its caller. -/
  | leave (f : Func)
  /-- One execution of a leaf loop body: loop variable `i`, value `v` computed for `i * i`. -/
  | iter (i : Nat) (v : Int)
  /-- A call of time.Sleep with the duration in nanoseconds. -/
  | sleep (ns : Nat)
  /-- Text written to standard output. -/
  | stdout (msg : String)
  /-- Text written to standard error. -/
  | stderr (msg : String)
  /-- A call of os.Create on `path`, with the error it returned. -/
  | create (path : String) (err : Option String)
  /-- A call of pprof.StartCPUProfile, with the error it returned. -/
  | startCPUProfile (err : Option String)
  /-- A call of pprof.StopCPUProfile. -/
  | stopCPUProfile
  /-- A call of f.Close on the profile file. -/
  | close
  /-- The process terminated with this status. -/
  | exit (code : Nat)
  deriving DecidableEq, Repr

/-- An action together with the call stack (outermost function first) active when it happened. -/
structure Sample where
  stack : List Func
  action : Action
  deriving DecidableEq, Repr

/-- The CPU-profile session of the runtime. -/
inductive Capture
  | idle
  | capturing
  | flushed
  deriving DecidableEq, Repr

/-- The calls `main` defers. -/
inductive Deferred
  | fClose
  | stopCPUProfile
  deriving DecidableEq, Repr

/-- What the environment decides: the width of `int`, the path separator, and the
errors (if any) returned by os.Create and pprof.StartCPUProfile. -/
structure Env where
  intSize : Nat
  separator : String
  createErr : Option String
  startErr : Option String
  deriving DecidableEq, Repr

/-- Program state. -/
structure State where
  /-- Active functions, outermost first. -/
  stack : List Func
  /-- Steps performed so far, oldest first. -/
  trace : List Sample
  /-- Deferred calls of the running `main`, most recently deferred first. -/
  deferred : List Deferred
  /-- The profile file was created on disk by this run. -/
  fileCreated : Bool
  /-- The handle `f` is open. -/
  sinkOpen : Bool
  /-- The CPU-profile session. -/
  capture : Capture
  /-- Profile data was written to the file. -/
  artifact : Bool
  /-- Exit status, once the process has terminated. -/
  exitCode : Option Nat
  deriving DecidableEq, Repr

/-- The state in which the process starts. -/
def State.init : State :=
  { stack := [], trace := [], deferred := [], fileCreated := false, sinkOpen := false,
    capture := Capture.idle, artifact := false, exitCode := none }

/-! ## Primitives -/

/-- Record an action with the current call stack. -/
def emit (a : Action) (s : State) : State :=
  { s with trace := s.trace ++ [⟨s.stack, a⟩] }

/-- Enter function `f`: push its frame. -/
def pushFrame (f : Func) (s : State) : State :=
  emit (Action.enter f) { s with stack := s.stack ++ [f] }

/-- Return from function `f`: pop its frame. -/
def popFrame (f : Func) (s : State) : State :=
  let s1 := emit (Action.leave f) s
  { s1 with stack := s1.stack.dropLast }

/-- A call of the function `f` whose body is `body`. -/
def call (f : Func) (body : State → State) (s : State) : State :=
  popFrame f (body (pushFrame f s))

/-- Two's-complement wrap-around of `x` to a signed integer of `w` bits. -/
def wrapInt (w : Nat) (x : Int) : Int :=
  (x + 2 ^ (w - 1)) % 2 ^ w - 2 ^ (w - 1)

/-- Go's `a * b` on `int` of `w` bits. -/
def mulInt (w : Nat) (a b : Int) : Int :=
  wrapInt w (a * b)

/-- The loop `for i := 0; i < n; i++` with body `body`, at the test of its condition with
loop variable `i`; the loop statement itself is `forLoop n body 0`. -/
def forLoop (n : Nat) (body : Nat → State → State) (i : Nat) (s : State) : State :=
  if i < n then forLoop n body (i + 1) (body i s) else s
termination_by n - i

/-- The statement `_ = i * i`. -/
def squareAndDiscard (w : Nat) (i : Nat) (s : State) : State :=
  emit (Action.iter i (mulInt w i i)) s

/-- The constant time.Millisecond, in nanoseconds. -/
def time_Millisecond : Nat := 1000 * (1000 * 1)

/-- The call time.Sleep(d). -/
def time_Sleep (d : Nat) (s : State) : State :=
  emit (Action.sleep d) s

/-- The call fmt.Println(msg). -/
def fmt_Println (msg : String) (s : State) : State :=
  emit (Action.stdout (msg ++ "\n")) s

/-- The call fmt.Printf with the formatted text `msg`. -/
def fmt_Printf (msg : String) (s : State) : State :=
  emit (Action.stdout msg) s

/-- The call fmt.Fprintf(os.Stderr, ...) with the formatted text `msg`. -/
def fmt_Fprintf_Stderr (msg : String) (s : State) : State :=
  emit (Action.stderr msg) s

/-- The call filepath.Join on clean, non-empty elements. -/
def filepath_Join (sep : String) (elems : List String) : String :=
  sep.intercalate elems

/-- The call os.Create(path): on success the file exists and the handle is open. -/
def os_Create (env : Env) (path : String) (s : State) : Option String × State :=
  match env.createErr with
  | some err => (some err, emit (Action.create path (some err)) s)
  | none =>
    (none, { emit (Action.create path none) s with fileCreated := true, sinkOpen := true })

/-- The call pprof.StartCPUProfile(f): on success the session is capturing. -/
def pprof_StartCPUProfile (env : Env) (s : State) : Option String × State :=
  match env.startErr with
  | some err => (some err, emit (Action.startCPUProfile (some err)) s)
  | none => (none, { emit (Action.startCPUProfile none) s with capture := Capture.capturing })

/-- The call pprof.StopCPUProfile(): a capturing session is flushed to the file. -/
def pprof_StopCPUProfile (s : State) : State :=
  let s1 := emit Action.stopCPUProfile s
  match s1.capture with
  | Capture.capturing => { s1 with capture := Capture.flushed, artifact := true }
  | _ => s1

/-- The call f.Close(). -/
def f_Close (s : State) : State :=
  { emit Action.close s with sinkOpen := false }

/-- The call os.Exit(code): the process terminates at once; deferred calls are not run. -/
def os_Exit (code : Nat) (s : State) : State :=
  { emit (Action.exit code) s with exitCode := some code }

/-- The statement `defer d`. -/
def defer (d : Deferred) (s : State) : State :=
  { s with deferred := d :: s.deferred }

/-- Run one deferred call. -/
def runDeferredCall (d : Deferred) (s : State) : State :=
  match d with
  | Deferred.fClose => f_Close s
  | Deferred.stopCPUProfile => pprof_StopCPUProfile s

/-- Run the given deferred calls, most recently deferred first. -/
def runDeferredList : List Deferred → State → State
  | [], s => s
  | d :: ds, s => runDeferredList ds (runDeferredCall d { s with deferred := ds })

/-- Function return: the deferred calls of the frame run in last-in-first-out order. -/
def runDeferred (s : State) : State :=
  runDeferredList s.deferred s

/-! ## The program -/

/-- innerFunctionA1 performs a small amount of CPU work. -/
def innerFunctionA1 (w : Nat) : State → State :=
  call Func.innerFunctionA1 (forLoop 10000000 (squareAndDiscard w) 0)

/-- innerFunctionA2 performs a medium amount of CPU work. -/
def innerFunctionA2 (w : Nat) : State → State :=
  call Func.innerFunctionA2 (forLoop 50000000 (squareAndDiscard w) 0)

/-- middleFunctionA calls inner functions. -/
def middleFunctionA (w : Nat) : State → State :=
  call Func.middleFunctionA fun s =>
    let s := innerFunctionA1 w s
    innerFunctionA2 w s

/-- innerFunctionB1 performs a large amount of CPU work. -/
def innerFunctionB1 (w : Nat) : State → State :=
  call Func.innerFunctionB1 (forLoop 100000000 (squareAndDiscard w) 0)

/-- middleFunctionB calls an inner function. -/
def middleFunctionB (w : Nat) : State → State :=
  call Func.middleFunctionB fun s =>
    innerFunctionB1 w s

/-- outerFunction simulates a more complex series of operations. -/
def outerFunction (w : Nat) : State → State :=
  call Func.outerFunction fun s =>
    let s := fmt_Println "Outer function started" s
    let s := forLoop 3 (fun _ s =>
      let s := middleFunctionA w s
      let s := time_Sleep (50 * time_Millisecond) s
      middleFunctionB w s) 0 s
    let s := forLoop 2 (fun _ s => middleFunctionA w s) 0 s
    fmt_Println "Outer function finished." s

/-- The path main writes the profile to. -/
def profilePath (env : Env) : String :=
  filepath_Join env.separator ["trace-examples", "go", "complex_go_trace.pprof"]

/-- The function main. -/
def main (env : Env) (s0 : State) : State :=
  let s := pushFrame Func.main s0
  match os_Create env (profilePath env) s with
  | (some err, s) =>
    let s := fmt_Fprintf_Stderr
      ("could not create CPU profile at " ++ profilePath env ++ ": " ++ err ++ "\n") s
    os_Exit 1 s
  | (none, s) =>
    let s := defer Deferred.fClose s
    match pprof_StartCPUProfile env s with
    | (some err, s) =>
      let s := fmt_Fprintf_Stderr ("could not start CPU profile: " ++ err ++ "\n") s
      os_Exit 1 s
    | (none, s) =>
      let s := defer Deferred.stopCPUProfile s
      let s := fmt_Println "Starting the complex function..." s
      let s := outerFunction env.intSize s
      let s := fmt_Printf
        ("Profiling finished. Profile saved to " ++ profilePath env ++ "\n") s
      popFrame Func.main (runDeferred s)

/-- The process: the runtime calls main and exits with status 0 when main returns. -/
def run (env : Env) : State :=
  let s := main env State.init
  match s.exitCode with
  | some _ => s
  | none => os_Exit 0 s

/-! ## Trace descriptions

The samples each function appends to the trace, as a function of the call stack
it is called with.  `outerFunction_eq` and its companions prove that the program
produces exactly these samples and changes nothing else. -/

/-- Append the samples `t` to the trace. -/
def record (t : List Sample) (s : State) : State :=
  { s with trace := s.trace ++ t }

/-- Samples of a loop of `n` iterations of `_ = i * i` run with stack `st`. -/
def loopSamples (w : Nat) (n : Nat) (st : List Func) : List Sample :=
  (List.range n).map fun i => ⟨st, Action.iter i (mulInt w i i)⟩

/-- Samples of a call of `f` from stack `st` whose body contributes `inner`. -/
def callSamples (f : Func) (inner : List Func → List Sample) (st : List Func) : List Sample :=
  ⟨st ++ [f], Action.enter f⟩ :: inner (st ++ [f]) ++ [⟨st ++ [f], Action.leave f⟩]

/-- Samples of innerFunctionA1. -/
def innerA1Samples (w : Nat) : List Func → List Sample :=
  callSamples Func.innerFunctionA1 (loopSamples w 10000000)

/-- Samples of innerFunctionA2. -/
def innerA2Samples (w : Nat) : List Func → List Sample :=
  callSamples Func.innerFunctionA2 (loopSamples w 50000000)

/-- Samples of innerFunctionB1. -/
def innerB1Samples (w : Nat) : List Func → List Sample :=
  callSamples Func.innerFunctionB1 (loopSamples w 100000000)

/-- Samples of middleFunctionA. -/
def middleASamples (w : Nat) : List Func → List Sample :=
  callSamples Func.middleFunctionA fun st => innerA1Samples w st ++ innerA2Samples w st

/-- Samples of middleFunctionB. -/
def middleBSamples (w : Nat) : List Func → List Sample :=
  callSamples Func.middleFunctionB (innerB1Samples w)

/-- Samples of one round of the first loop of outerFunction. -/
def roundSamples (w : Nat) (st : List Func) : List Sample :=
  middleASamples w st ++ ([⟨st, Action.sleep (50 * time_Millisecond)⟩] ++ middleBSamples w st)

/-- Samples of the body of outerFunction. -/
def outerBodySamples (w : Nat) (st : List Func) : List Sample :=
  [⟨st, Action.stdout ("Outer function started" ++ "\n")⟩] ++
    ((List.range 3).flatMap (fun _ => roundSamples w st) ++
      ((List.range 2).flatMap (fun _ => middleASamples w st) ++
        [⟨st, Action.stdout ("Outer function finished." ++ "\n")⟩]))

/-- Samples of outerFunction. -/
def outerSamples (w : Nat) : List Func → List Sample :=
  callSamples Func.outerFunction (outerBodySamples w)

/-! ## Observations -/

/-- The samples recorded between state `s` and a later state `s2`. -/
def performed (s s2 : State) : List Sample :=
  s2.trace.drop s.trace.length

/-- The three leaf functions. -/
def Func.isLeaf : Func → Bool
  | Func.innerFunctionA1 => true
  | Func.innerFunctionA2 => true
  | Func.innerFunctionB1 => true
  | _ => false

/-- A leaf invocation or a pause. -/
def Action.isLeafOrPause : Action → Bool
  | Action.enter f => f.isLeaf
  | Action.sleep _ => true
  | _ => false

/-- An execution of a leaf loop body. -/
def Action.isIter : Action → Bool
  | Action.iter _ _ => true
  | _ => false

/-- The leaf invocations and pauses among the samples, in order. -/
def leafEvents (t : List Sample) : List Action :=
  (t.map Sample.action).filter Action.isLeafOrPause

/-- The number of loop-body executions among the samples. -/
def iterations (t : List Sample) : Nat :=
  t.countP fun smp => smp.action.isIter

/-- The loop-variable values of the loop-body executions among the samples, in order. -/
def iterIndices (t : List Sample) : List Nat :=
  t.filterMap fun smp =>
    match smp.action with
    | Action.iter i _ => some i
    | _ => none

/-- The level of a function in the call tree: root 1, middle 2, inner 3; main, which is not
part of the workload, 0. -/
def Func.level : Func → Nat
  | Func.outerFunction => 1
  | Func.middleFunctionA => 2
  | Func.middleFunctionB => 2
  | Func.innerFunctionA1 => 3
  | Func.innerFunctionA2 => 3
  | Func.innerFunctionB1 => 3
  | Func.main => 0

/-- The part of the stack of `smp` above the stack `base` the workload was called with. -/
def relStack (base : List Func) (smp : Sample) : List Func :=
  smp.stack.drop base.length

/-- A step that belongs to a leaf invocation: entering it, one loop iteration, leaving it. -/
def Action.isLeafStep : Action → Bool
  | Action.enter f => f.isLeaf
  | Action.leave f => f.isLeaf
  | Action.iter _ _ => true
  | _ => false

/-- Among the samples `t`, taken above the stack `base`, function `f` calls function `g`. -/
def callsIn (base : List Func) (t : List Sample) (f g : Func) : Prop :=
  ∃ smp ∈ t, smp.action = Action.enter g ∧ ∃ pre, relStack base smp = pre ++ [f, g]

/-- The shapes the stack takes above the caller of outerFunction, and the actions at each. -/
def stackShape (rel : List Func) (a : Action) : Prop :=
  ((a.isLeafStep = false ∧
      (rel = [Func.outerFunction] ∨ rel = [Func.outerFunction, Func.middleFunctionA] ∨
        rel = [Func.outerFunction, Func.middleFunctionB])) ∨
    (a.isLeafStep = true ∧
      (rel = [Func.outerFunction, Func.middleFunctionA, Func.innerFunctionA1] ∨
        rel = [Func.outerFunction, Func.middleFunctionA, Func.innerFunctionA2] ∨
        rel = [Func.outerFunction, Func.middleFunctionB, Func.innerFunctionB1]))) ∧
  (∀ g, a = Action.enter g → rel.getLast? = some g)

/-- The samples of a run of outerFunction called from the stack `st`. -/
def workloadRun (w : Nat) (st : List Func) : List Sample :=
  performed { State.init with stack := st } (outerFunction w { State.init with stack := st })

/-- An action of the profile recorder: creating the sink, starting and stopping capture,
closing the sink. -/
def Action.isRecorder : Action → Bool
  | Action.create _ _ => true
  | Action.startCPUProfile _ => true
  | Action.stopCPUProfile => true
  | Action.close => true
  | _ => false

/-- The recorder actions among the samples, in order. -/
def recorderEvents (t : List Sample) : List Action :=
  (t.map Sample.action).filter Action.isRecorder

/-- An environment in which os.Create fails. -/
def envCreateFails : Env :=
  { intSize := 64, separator := "/", createErr := some "no such file or directory",
    startErr := none }

/-- An environment in which os.Create succeeds and pprof.StartCPUProfile fails. -/
def envStartFails : Env :=
  { intSize := 64, separator := "/", createErr := none,
    startErr := some "cpu profiling already in use" }

/-- An environment in which os.Create and pprof.StartCPUProfile succeed. -/
def envSuccess : Env :=
  { intSize := 64, separator := "/", createErr := none, startErr := none }

/-! ## Basic lemmas -/

theorem record_stack (t : List Sample) (s : State) : (record t s).stack = s.stack := rfl

theorem record_record (t u : List Sample) (s : State) :
    record u (record t s) = record (t ++ u) s := by
  simp [record, List.append_assoc]

theorem record_nil (s : State) : record [] s = s := by
  simp [record]

theorem emit_eq_record (a : Action) (s : State) : emit a s = record [⟨s.stack, a⟩] s := rfl

/-- A loop whose body only appends samples appends the samples of its rounds in order. -/
theorem forLoop_record_aux (n : Nat) (body : Nat → State → State)
    (g : Nat → List Func → List Sample)
    (hbody : ∀ j s, body j s = record (g j s.stack) s) :
    ∀ k i s, n - i = k →
      forLoop n body i s = record ((List.range' i k).flatMap fun j => g j s.stack) s := by
  intro k
  induction k with
  | zero =>
    intro i s h
    have hi : ¬ i < n := by omega
    rw [forLoop, if_neg hi]
    simp [record_nil]
  | succ k ih =>
    intro i s h
    have hi : i < n := by omega
    rw [forLoop, if_pos hi, ih (i + 1) (body i s) (by omega), hbody, record_record]
    simp [List.range'_succ, record_stack]

/-- The loop statement `for i := 0; i < n; i++` with a body that only appends samples. -/
theorem forLoop_record (n : Nat) (body : Nat → State → State)
    (g : Nat → List Func → List Sample)
    (hbody : ∀ j s, body j s = record (g j s.stack) s) (s : State) :
    forLoop n body 0 s = record ((List.range n).flatMap fun j => g j s.stack) s := by
  rw [forLoop_record_aux n body g hbody n 0 s (by omega), List.range_eq_range']

/-- A call whose body only appends samples appends them between an enter and a leave sample
and restores the stack. -/
theorem call_record (f : Func) (body : State → State) (t : List Func → List Sample)
    (hbody : ∀ s, body s = record (t s.stack) s) (s : State) :
    call f body s = record (callSamples f t s.stack) s := by
  simp [call, pushFrame, popFrame, hbody, emit, record, callSamples, List.append_assoc]

theorem flatMap_single {α β : Type} (f : α → β) (l : List α) :
    (l.flatMap fun a => [f a]) = l.map f := by
  induction l with
  | nil => rfl
  | cons a l ih => simp only [List.flatMap_cons, List.map_cons, List.singleton_append, ih]

theorem squareAndDiscard_eq (w i : Nat) (s : State) :
    squareAndDiscard w i s = record [⟨s.stack, Action.iter i (mulInt w i i)⟩] s := rfl

theorem leafLoop_eq (w n : Nat) (s : State) :
    forLoop n (squareAndDiscard w) 0 s = record (loopSamples w n s.stack) s := by
  rw [forLoop_record n (squareAndDiscard w)
    (fun i st => [⟨st, Action.iter i (mulInt w i i)⟩]) (fun j s => squareAndDiscard_eq w j s)]
  rw [flatMap_single]
  rfl

/-! ## What each function does to the state -/

theorem innerFunctionA1_eq (w : Nat) (s : State) :
    innerFunctionA1 w s = record (innerA1Samples w s.stack) s :=
  call_record _ _ _ (leafLoop_eq w 10000000) s

theorem innerFunctionA2_eq (w : Nat) (s : State) :
    innerFunctionA2 w s = record (innerA2Samples w s.stack) s :=
  call_record _ _ _ (leafLoop_eq w 50000000) s

theorem innerFunctionB1_eq (w : Nat) (s : State) :
    innerFunctionB1 w s = record (innerB1Samples w s.stack) s :=
  call_record _ _ _ (leafLoop_eq w 100000000) s

theorem middleFunctionA_eq (w : Nat) (s : State) :
    middleFunctionA w s = record (middleASamples w s.stack) s := by
  refine call_record _ _ (fun st => innerA1Samples w st ++ innerA2Samples w st) ?_ s
  intro s
  simp only [innerFunctionA1_eq, innerFunctionA2_eq, record_record, record_stack]

theorem middleFunctionB_eq (w : Nat) (s : State) :
    middleFunctionB w s = record (middleBSamples w s.stack) s :=
  call_record _ _ _ (innerFunctionB1_eq w) s

theorem outerFunction_eq (w : Nat) (s : State) :
    outerFunction w s = record (outerSamples w s.stack) s := by
  refine call_record _ _ (outerBodySamples w) ?_ s
  intro s
  have h3 := forLoop_record 3
    (fun _ s => middleFunctionB w (time_Sleep (50 * time_Millisecond) (middleFunctionA w s)))
    (fun _ st => roundSamples w st)
    (by
      intro j s
      simp only [middleFunctionA_eq, middleFunctionB_eq, time_Sleep, emit_eq_record,
        record_record, record_stack, roundSamples, List.append_assoc])
  have h2 := forLoop_record 2 (fun _ s => middleFunctionA w s)
    (fun _ st => middleASamples w st) (fun _ s => middleFunctionA_eq w s)
  simp only [h3, h2, fmt_Println, emit_eq_record, record_record, record_stack, outerBodySamples,
    List.append_assoc]

theorem performed_record (t : List Sample) (s : State) : performed s (record t s) = t := by
  simp [performed, record]

theorem leafEvents_append (t u : List Sample) :
    leafEvents (t ++ u) = leafEvents t ++ leafEvents u := by
  simp [leafEvents]

theorem leafEvents_cons (smp : Sample) (t : List Sample) :
    leafEvents (smp :: t) =
      (if smp.action.isLeafOrPause then [smp.action] else []) ++ leafEvents t := by
  simp only [leafEvents, List.map_cons, List.filter_cons]
  split <;> rfl

theorem leafEvents_nil : leafEvents [] = [] := rfl

theorem leafEvents_loopSamples (w n : Nat) (st : List Func) :
    leafEvents (loopSamples w n st) = [] := by
  simp [leafEvents, loopSamples, List.filter_eq_nil_iff, Action.isLeafOrPause]

theorem leafEvents_callSamples (f : Func) (inner : List Func → List Sample) (st : List Func) :
    leafEvents (callSamples f inner st) =
      (if f.isLeaf then [Action.enter f] else []) ++ leafEvents (inner (st ++ [f])) := by
  simp [callSamples, leafEvents_cons, leafEvents_append, leafEvents_nil, Action.isLeafOrPause]

theorem sleep_duration : 50 * time_Millisecond = 50000000 := by
  norm_num [time_Millisecond]

theorem range_three : List.range 3 = [0, 1, 2] := rfl

theorem range_two : List.range 2 = [0, 1] := rfl

theorem leafEvents_middleA (w : Nat) (st : List Func) :
    leafEvents (middleASamples w st) =
      [Action.enter Func.innerFunctionA1, Action.enter Func.innerFunctionA2] := by
  simp [middleASamples, innerA1Samples, innerA2Samples, leafEvents_callSamples,
    leafEvents_append, leafEvents_loopSamples, Func.isLeaf]

theorem leafEvents_middleB (w : Nat) (st : List Func) :
    leafEvents (middleBSamples w st) = [Action.enter Func.innerFunctionB1] := by
  simp [middleBSamples, innerB1Samples, leafEvents_callSamples,
    leafEvents_append, leafEvents_loopSamples, Func.isLeaf]

theorem leafEvents_outer (w : Nat) (st : List Func) :
    leafEvents (outerSamples w st) =
      [Action.enter Func.innerFunctionA1, Action.enter Func.innerFunctionA2,
        Action.sleep 50000000, Action.enter Func.innerFunctionB1,
       Action.enter Func.innerFunctionA1, Action.enter Func.innerFunctionA2,
        Action.sleep 50000000, Action.enter Func.innerFunctionB1,
       Action.enter Func.innerFunctionA1, Action.enter Func.innerFunctionA2,
        Action.sleep 50000000, Action.enter Func.innerFunctionB1,
       Action.enter Func.innerFunctionA1, Action.enter Func.innerFunctionA2,
       Action.enter Func.innerFunctionA1, Action.enter Func.innerFunctionA2] := by
  simp [outerSamples, outerBodySamples, roundSamples, leafEvents_callSamples, leafEvents_append,
    leafEvents_cons, leafEvents_nil, leafEvents_middleA, leafEvents_middleB, range_three,
    range_two, Func.isLeaf, Action.isLeafOrPause, sleep_duration]

theorem iterations_append (t u : List Sample) :
    iterations (t ++ u) = iterations t + iterations u := by
  simp [iterations]

theorem iterations_nil : iterations [] = 0 := rfl

theorem iterations_cons (smp : Sample) (t : List Sample) :
    iterations (smp :: t) = (if smp.action.isIter then 1 else 0) + iterations t := by
  simp only [iterations, List.countP_cons]
  omega

theorem iterations_loopSamples (w n : Nat) (st : List Func) :
    iterations (loopSamples w n st) = n := by
  simp [iterations, loopSamples, List.countP_map, Function.comp_def, Action.isIter]

theorem iterations_callSamples (f : Func) (inner : List Func → List Sample) (st : List Func) :
    iterations (callSamples f inner st) = iterations (inner (st ++ [f])) := by
  simp [callSamples, iterations_cons, iterations_append, iterations_nil, Action.isIter]

theorem iterations_innerA1 (w : Nat) (st : List Func) :
    iterations (innerA1Samples w st) = 10000000 := by
  rw [innerA1Samples, iterations_callSamples, iterations_loopSamples]

theorem iterations_innerA2 (w : Nat) (st : List Func) :
    iterations (innerA2Samples w st) = 50000000 := by
  rw [innerA2Samples, iterations_callSamples, iterations_loopSamples]

theorem iterations_innerB1 (w : Nat) (st : List Func) :
    iterations (innerB1Samples w st) = 100000000 := by
  rw [innerB1Samples, iterations_callSamples, iterations_loopSamples]

theorem iterations_middleA (w : Nat) (st : List Func) :
    iterations (middleASamples w st) = 60000000 := by
  rw [middleASamples, iterations_callSamples, iterations_append, iterations_innerA1,
    iterations_innerA2]

theorem iterations_middleB (w : Nat) (st : List Func) :
    iterations (middleBSamples w st) = 100000000 := by
  rw [middleBSamples, iterations_callSamples, iterations_innerB1]

theorem iterations_outer (w : Nat) (st : List Func) :
    iterations (outerSamples w st) = 600000000 := by
  simp [outerSamples, outerBodySamples, roundSamples, iterations_callSamples,
    iterations_append, iterations_cons, iterations_nil, iterations_middleA, iterations_middleB,
    range_three, range_two, Action.isIter]

theorem forall_mem_callSamples (P : Sample → Prop) (f : Func)
    (inner : List Func → List Sample) (st : List Func) :
    (∀ smp ∈ callSamples f inner st, P smp) ↔
      P ⟨st ++ [f], Action.enter f⟩ ∧ (∀ smp ∈ inner (st ++ [f]), P smp) ∧
        P ⟨st ++ [f], Action.leave f⟩ := by
  simp [callSamples, or_imp, forall_and]

theorem forall_mem_loopSamples (P : Sample → Prop) (w n : Nat) (st : List Func) :
    (∀ smp ∈ loopSamples w n st, P smp) ↔
      ∀ i, i < n → P ⟨st, Action.iter i (mulInt w i i)⟩ := by
  simp [loopSamples]

theorem outerSamples_shape (w : Nat) (st : List Func) :
    ∀ smp ∈ outerSamples w st,
      smp.stack = st ++ relStack st smp ∧ stackShape (relStack st smp) smp.action := by
  simp only [outerSamples, outerBodySamples, roundSamples, middleASamples, middleBSamples,
    innerA1Samples, innerA2Samples, innerB1Samples, forall_mem_callSamples,
    forall_mem_loopSamples, range_three, range_two, List.flatMap_cons, List.flatMap_nil,
    List.mem_append, List.mem_cons, List.mem_singleton, List.not_mem_nil, or_imp, forall_and,
    forall_eq, relStack, stackShape, List.append_assoc, List.drop_left, Action.isLeafStep,
    Func.isLeaf]
  simp

theorem iterIndices_append (t u : List Sample) :
    iterIndices (t ++ u) = iterIndices t ++ iterIndices u := by
  simp [iterIndices]

theorem iterIndices_loopSamples (w n : Nat) (st : List Func) :
    iterIndices (loopSamples w n st) = List.range n := by
  simp only [iterIndices, loopSamples, List.filterMap_map]
  exact List.filterMap_some _

theorem iterIndices_leaf (f : Func) (w n : Nat) (st : List Func) :
    iterIndices (callSamples f (loopSamples w n) st) = List.range n := by
  have h := iterIndices_loopSamples w n (st ++ [f])
  simp only [iterIndices] at h
  simp [callSamples, iterIndices, h]

theorem callSamples_getLast (f : Func) (inner : List Func → List Sample) (st : List Func) :
    (callSamples f inner st).getLast? = some ⟨st ++ [f], Action.leave f⟩ := by
  simp [callSamples, List.getLast?_cons, List.getLast?_append]

theorem mem_callSamples_enter (f : Func) (inner : List Func → List Sample) (st : List Func) :
    (⟨st ++ [f], Action.enter f⟩ : Sample) ∈ callSamples f inner st :=
  List.mem_cons_self _ _

theorem mem_callSamples_inner (f : Func) (inner : List Func → List Sample) (st : List Func)
    (smp : Sample) (h : smp ∈ inner (st ++ [f])) : smp ∈ callSamples f inner st :=
  List.mem_cons_of_mem _ (List.mem_append_left _ h)

/-- The calls that happen in a run of outerFunction are those of the source's call tree. -/
theorem callsIn_outer (w : Nat) (st : List Func) (f g : Func) :
    callsIn st (outerSamples w st) f g ↔
      (f = Func.outerFunction ∧ g = Func.middleFunctionA) ∨
      (f = Func.outerFunction ∧ g = Func.middleFunctionB) ∨
      (f = Func.middleFunctionA ∧ g = Func.innerFunctionA1) ∨
      (f = Func.middleFunctionA ∧ g = Func.innerFunctionA2) ∨
      (f = Func.middleFunctionB ∧ g = Func.innerFunctionB1) := by
  constructor
  · rintro ⟨smp, hmem, hact, pre, hpre⟩
    obtain ⟨-, hshape, -⟩ := outerSamples_shape w st smp hmem
    rw [hpre] at hshape
    rcases pre with _ | ⟨a, _ | ⟨b, _ | ⟨c, pre⟩⟩⟩ <;> simp at hshape <;> tauto
  · have hmem : ∀ smp : Sample,
        smp ∈ middleASamples w (st ++ [Func.outerFunction]) ∨
          smp ∈ middleBSamples w (st ++ [Func.outerFunction]) → smp ∈ outerSamples w st := by
      intro smp h
      simp only [outerSamples, callSamples, outerBodySamples, roundSamples, range_three,
        range_two, List.flatMap_cons, List.flatMap_nil, List.mem_append, List.mem_cons,
        List.mem_singleton]
      tauto
    rintro (⟨rfl, rfl⟩ | ⟨rfl, rfl⟩ | ⟨rfl, rfl⟩ | ⟨rfl, rfl⟩ | ⟨rfl, rfl⟩)
    · exact ⟨⟨st ++ [Func.outerFunction] ++ [Func.middleFunctionA], _⟩,
        hmem _ (Or.inl (mem_callSamples_enter _ _ _)), rfl, [], by simp [relStack]⟩
    · exact ⟨⟨st ++ [Func.outerFunction] ++ [Func.middleFunctionB], _⟩,
        hmem _ (Or.inr (mem_callSamples_enter _ _ _)), rfl, [], by simp [relStack]⟩
    · exact ⟨⟨st ++ [Func.outerFunction] ++ [Func.middleFunctionA] ++ [Func.innerFunctionA1], _⟩,
        hmem _ (Or.inl (mem_callSamples_inner _ _ _ _
          (List.mem_append_left _ (mem_callSamples_enter _ _ _)))), rfl,
        [Func.outerFunction], by simp [relStack]⟩
    · exact ⟨⟨st ++ [Func.outerFunction] ++ [Func.middleFunctionA] ++ [Func.innerFunctionA2], _⟩,
        hmem _ (Or.inl (mem_callSamples_inner _ _ _ _
          (List.mem_append_right _ (mem_callSamples_enter _ _ _)))), rfl,
        [Func.outerFunction], by simp [relStack]⟩
    · exact ⟨⟨st ++ [Func.outerFunction] ++ [Func.middleFunctionB] ++ [Func.innerFunctionB1], _⟩,
        hmem _ (Or.inr (mem_callSamples_inner _ _ _ _ (mem_callSamples_enter _ _ _))), rfl,
        [Func.outerFunction], by simp [relStack]⟩

theorem square_bounds (i : Nat) (h : i < 100000000) :
    0 ≤ (i : Int) * i ∧ (i : Int) * i < 10000000000000000 := by
  have h1 : (i : Int) < 100000000 := by exact_mod_cast h
  have h0 : 0 ≤ (i : Int) := Int.ofNat_nonneg i
  constructor <;> nlinarith

theorem square_ge (i : Nat) (h : 46341 ≤ i) : 2147488281 ≤ (i : Int) * i := by
  have h1 : (46341 : Int) ≤ i := by exact_mod_cast h
  nlinarith

theorem square_lt (i : Nat) (h : i < 46341) : (i : Int) * i < 2147483648 := by
  have h1 : (i : Int) ≤ 46340 := by
    have : i ≤ 46340 := by omega
    exact_mod_cast this
  have h0 : 0 ≤ (i : Int) := Int.ofNat_nonneg i
  nlinarith

theorem wrapInt_64 (x : Int) (h0 : 0 ≤ x) (h1 : x < 9223372036854775808) :
    wrapInt 64 x = x := by
  unfold wrapInt
  norm_num
  omega

theorem wrapInt_32_small (x : Int) (h0 : 0 ≤ x) (h1 : x < 2147483648) :
    wrapInt 32 x = x := by
  unfold wrapInt
  norm_num
  omega

theorem wrapInt_32_large (x : Int) (h1 : 2147483648 ≤ x) : wrapInt 32 x ≠ x := by
  unfold wrapInt
  norm_num
  omega

theorem wrapInt_32_emod (x : Int) : wrapInt 32 x % 4294967296 = x % 4294967296 := by
  unfold wrapInt
  norm_num
  omega

theorem wrapInt_32_range (x : Int) :
    -2147483648 ≤ wrapInt 32 x ∧ wrapInt 32 x < 2147483648 := by
  unfold wrapInt
  norm_num
  omega

theorem outerSamples_iter (w : Nat) (st : List Func) :
    ∀ smp ∈ outerSamples w st, ∀ i v, smp.action = Action.iter i v →
      i < 100000000 ∧ v = mulInt w i i := by
  simp only [outerSamples, outerBodySamples, roundSamples, middleASamples, middleBSamples,
    innerA1Samples, innerA2Samples, innerB1Samples, forall_mem_callSamples,
    forall_mem_loopSamples, range_three, range_two, List.flatMap_cons, List.flatMap_nil,
    List.mem_append, List.mem_cons, List.mem_singleton, List.not_mem_nil, or_imp, forall_and,
    forall_eq]
  simp
  exact ⟨fun i h => by omega, fun i h => by omega⟩

theorem mem_outerSamples_of_middleA (w : Nat) (st : List Func) (smp : Sample)
    (h : smp ∈ middleASamples w (st ++ [Func.outerFunction])) : smp ∈ outerSamples w st := by
  simp only [outerSamples, callSamples, outerBodySamples, roundSamples, range_three,
    range_two, List.flatMap_cons, List.flatMap_nil, List.mem_append, List.mem_cons,
    List.mem_singleton]
  tauto

theorem mem_outerSamples_iter (w : Nat) (st : List Func) (i : Nat) (h : i < 10000000) :
    (⟨st ++ [Func.outerFunction] ++ [Func.middleFunctionA] ++ [Func.innerFunctionA1],
      Action.iter i (mulInt w i i)⟩ : Sample) ∈ outerSamples w st := by
  apply mem_outerSamples_of_middleA
  apply mem_callSamples_inner
  apply List.mem_append_left
  apply mem_callSamples_inner
  simp only [loopSamples, List.mem_map, List.mem_range]
  exact ⟨i, h, rfl⟩

theorem mulInt_32_at_46341 : mulInt 32 46341 46341 = -2147479015 := by
  unfold mulInt wrapInt
  norm_num

theorem workloadRun_eq (w : Nat) (st : List Func) : workloadRun w st = outerSamples w st := by
  rw [workloadRun, outerFunction_eq, performed_record]

/-- The run in which os.Create fails. -/
theorem run_create_fails (env : Env) (e : String) (hc : env.createErr = some e) :
    run env =
      { State.init with
        stack := [Func.main]
        trace := [⟨[Func.main], Action.enter Func.main⟩,
          ⟨[Func.main], Action.create (profilePath env) (some e)⟩,
          ⟨[Func.main], Action.stderr
            ("could not create CPU profile at " ++ profilePath env ++ ": " ++ e ++ "\n")⟩,
          ⟨[Func.main], Action.exit 1⟩]
        exitCode := some 1 } := by
  simp [run, main, os_Create, hc, pushFrame, emit, fmt_Fprintf_Stderr, os_Exit, State.init]

/-- The run in which os.Create succeeds and pprof.StartCPUProfile fails. -/
theorem run_start_fails (env : Env) (e : String) (hc : env.createErr = none)
    (hs : env.startErr = some e) :
    run env =
      { State.init with
        stack := [Func.main]
        trace := [⟨[Func.main], Action.enter Func.main⟩,
          ⟨[Func.main], Action.create (profilePath env) none⟩,
          ⟨[Func.main], Action.startCPUProfile (some e)⟩,
          ⟨[Func.main], Action.stderr ("could not start CPU profile: " ++ e ++ "\n")⟩,
          ⟨[Func.main], Action.exit 1⟩]
        deferred := [Deferred.fClose]
        fileCreated := true
        sinkOpen := true
        exitCode := some 1 } := by
  simp [run, main, os_Create, hc, pprof_StartCPUProfile, hs, defer, pushFrame, emit,
    fmt_Fprintf_Stderr, os_Exit, State.init]

/-- The run in which os.Create and pprof.StartCPUProfile succeed. -/
theorem run_success (env : Env) (hc : env.createErr = none) (hs : env.startErr = none) :
    run env =
      { stack := []
        trace := [⟨[Func.main], Action.enter Func.main⟩,
            ⟨[Func.main], Action.create (profilePath env) none⟩,
            ⟨[Func.main], Action.startCPUProfile none⟩,
            ⟨[Func.main], Action.stdout ("Starting the complex function..." ++ "\n")⟩] ++
          outerSamples env.intSize [Func.main] ++
          [⟨[Func.main], Action.stdout
              ("Profiling finished. Profile saved to " ++ profilePath env ++ "\n")⟩,
            ⟨[Func.main], Action.stopCPUProfile⟩,
            ⟨[Func.main], Action.close⟩,
            ⟨[Func.main], Action.leave Func.main⟩,
            ⟨[], Action.exit 0⟩]
        deferred := []
        fileCreated := true
        sinkOpen := false
        capture := Capture.flushed
        artifact := true
        exitCode := some 0 } := by
  obtain ⟨g, hg, hT⟩ : ∃ g : List Func → List Sample, g = outerSamples env.intSize ∧
      ∀ s, outerFunction env.intSize s = record (g s.stack) s :=
    ⟨_, rfl, outerFunction_eq _⟩
  rw [← hg]
  clear hg
  simp [run, main, os_Create, hc, pprof_StartCPUProfile, hs, defer, pushFrame, popFrame, emit,
    fmt_Println, fmt_Printf, os_Exit, State.init, hT, record, runDeferred,
    runDeferredList, runDeferredCall, pprof_StopCPUProfile, f_Close]

theorem outerSamples_not_recorder (w : Nat) (st : List Func) :
    ∀ smp ∈ outerSamples w st, smp.action.isRecorder = false := by
  simp only [outerSamples, outerBodySamples, roundSamples, middleASamples, middleBSamples,
    innerA1Samples, innerA2Samples, innerB1Samples, forall_mem_callSamples,
    forall_mem_loopSamples, range_three, range_two, List.flatMap_cons, List.flatMap_nil,
    List.mem_append, List.mem_cons, List.mem_singleton, List.not_mem_nil, or_imp, forall_and,
    forall_eq]
  simp [Action.isRecorder]

theorem recorderEvents_outer (w : Nat) (st : List Func) :
    recorderEvents (outerSamples w st) = [] := by
  simp only [recorderEvents, List.filter_eq_nil_iff, List.mem_map]
  rintro a ⟨smp, hmem, rfl⟩
  simp [outerSamples_not_recorder w st smp hmem]

theorem recorderEvents_append (t u : List Sample) :
    recorderEvents (t ++ u) = recorderEvents t ++ recorderEvents u := by
  simp [recorderEvents]

theorem count_action_outer (w : Nat) (st : List Func) (a : Action) (h : a.isRecorder = true) :
    ((outerSamples w st).map Sample.action).count a = 0 := by
  rw [List.count_eq_zero]
  intro hmem
  obtain ⟨smp, hs, rfl⟩ := List.mem_map.1 hmem
  rw [outerSamples_not_recorder w st smp hs] at h
  exact Bool.noConfusion h

/-- The exit status is 0 exactly when both os.Create and pprof.StartCPUProfile succeed, and
it is 1 otherwise. -/
theorem run_exitCode (env : Env) :
    ((run env).exitCode = some 0 ↔ env.createErr = none ∧ env.startErr = none) ∧
    ((run env).exitCode = some 0 ∨ (run env).exitCode = some 1) := by
  rcases hc : env.createErr with _ | e
  · rcases hs : env.startErr with _ | e
    · rw [run_success env hc hs]
      simp
    · rw [run_start_fails env e hc hs]
      simp
  · rw [run_create_fails env e hc]
    simp

/-! ## The workload: order of leaf invocations and pauses -/

/-- C1 (amended): for every run of outerFunction, whatever the width of `int` and the state
it starts from, the sequence of leaf invocations and pauses it performs is exactly
[innerFunctionA1, innerFunctionA2, Sleep(50 ms), innerFunctionB1] three times followed by
[innerFunctionA1, innerFunctionA2] two times: 16 events in that order, nothing before,
between or after. -/
theorem outerFunction_leaf_sequence (w : Nat) (s : State) :
    leafEvents (performed s (outerFunction w s)) =
      [Action.enter Func.innerFunctionA1, Action.enter Func.innerFunctionA2,
        Action.sleep 50000000, Action.enter Func.innerFunctionB1,
       Action.enter Func.innerFunctionA1, Action.enter Func.innerFunctionA2,
        Action.sleep 50000000, Action.enter Func.innerFunctionB1,
       Action.enter Func.innerFunctionA1, Action.enter Func.innerFunctionA2,
        Action.sleep 50000000, Action.enter Func.innerFunctionB1,
       Action.enter Func.innerFunctionA1, Action.enter Func.innerFunctionA2,
       Action.enter Func.innerFunctionA1, Action.enter Func.innerFunctionA2] ∧
    (leafEvents (performed s (outerFunction w s))).length = 16 := by
  rw [outerFunction_eq, performed_record, leafEvents_outer]
  exact ⟨rfl, rfl⟩

/-- C1 as stated fails: the run of outerFunction from the initial state with a 64-bit `int`
performs 16 leaf invocations and pauses, not 17. -/
theorem outerFunction_leaf_sequence_not_17 :
    (leafEvents (performed State.init (outerFunction 64 State.init))).length = 16 ∧
    (leafEvents (performed State.init (outerFunction 64 State.init))).length ≠ 17 := by
  rw [outerFunction_eq, performed_record, leafEvents_outer]
  exact ⟨rfl, by decide⟩

/-- C2 (amended): one run of outerFunction performs 3 x (small, medium, pause of 50 ms, large)
and then 2 x (small, medium), in that order; in all 5 invocations of the small leaf, 5 of the
medium leaf, 3 pauses, each of 50 ms, and 3 invocations of the large leaf innerFunctionB1,
and no other leaf invocation or pause. -/
theorem outerFunction_event_counts (w : Nat) (s : State) :
    leafEvents (performed s (outerFunction w s)) =
      (List.replicate 3
        [Action.enter Func.innerFunctionA1, Action.enter Func.innerFunctionA2,
          Action.sleep (50 * 1000000), Action.enter Func.innerFunctionB1]).flatten ++
      (List.replicate 2
        [Action.enter Func.innerFunctionA1, Action.enter Func.innerFunctionA2]).flatten ∧
    (leafEvents (performed s (outerFunction w s))).count
      (Action.enter Func.innerFunctionA1) = 5 ∧
    (leafEvents (performed s (outerFunction w s))).count
      (Action.enter Func.innerFunctionA2) = 5 ∧
    (leafEvents (performed s (outerFunction w s))).count (Action.sleep (50 * 1000000)) = 3 ∧
    (leafEvents (performed s (outerFunction w s))).count
      (Action.enter Func.innerFunctionB1) = 3 ∧
    (leafEvents (performed s (outerFunction w s))).length = 5 + 5 + 3 + 3 := by
  rw [outerFunction_eq, performed_record, leafEvents_outer]
  refine ⟨rfl, ?_, ?_, ?_, ?_, rfl⟩ <;> decide

/-- C2 as stated fails: the run of outerFunction from the initial state with a 64-bit `int`
invokes the large leaf innerFunctionB1 three times, not once. -/
theorem outerFunction_large_leaf_not_once :
    (leafEvents (performed State.init (outerFunction 64 State.init))).count
      (Action.enter Func.innerFunctionB1) = 3 ∧
    (leafEvents (performed State.init (outerFunction 64 State.init))).count
      (Action.enter Func.innerFunctionB1) ≠ 1 := by
  rw [outerFunction_eq, performed_record, leafEvents_outer]
  exact ⟨by decide, by decide⟩

/-! ## The workload: cost of the leaves, call depth, termination -/

/-- C7: the leaf loops iterate in the ratio 1 : 5 : 10. A call of innerFunctionA1 executes its
loop body 10,000,000 times, a call of innerFunctionA2 exactly 5 times as often (50,000,000) and
a call of innerFunctionB1 exactly 10 times as often (100,000,000). -/
theorem leaf_iteration_ratio (w : Nat) (s : State) :
    iterations (performed s (innerFunctionA1 w s)) = 10000000 ∧
    iterations (performed s (innerFunctionA2 w s)) =
      5 * iterations (performed s (innerFunctionA1 w s)) ∧
    iterations (performed s (innerFunctionA2 w s)) = 50000000 ∧
    iterations (performed s (innerFunctionB1 w s)) =
      10 * iterations (performed s (innerFunctionA1 w s)) ∧
    iterations (performed s (innerFunctionB1 w s)) = 100000000 := by
  simp only [innerFunctionA1_eq, innerFunctionA2_eq, innerFunctionB1_eq, performed_record,
    iterations_innerA1, iterations_innerA2, iterations_innerB1]
  norm_num

/-- C8: at every step of a run of outerFunction the stack of active workload functions,
counted from the root outerFunction (that is, above the stack outerFunction was called with),
has depth between 1 and 3, starts at outerFunction and holds one function of each level
1, 2, 3 in turn; every step of a leaf invocation happens at depth exactly 3 with stack
[outerFunction, middleFunctionA or middleFunctionB, leaf]; and the calls made are exactly
those of the call tree, so that no function calls itself or a function of its own or a
higher level. -/
theorem workload_stack_depth (w : Nat) (s : State) :
    (∀ smp ∈ performed s (outerFunction w s),
      smp.stack = s.stack ++ relStack s.stack smp ∧
      1 ≤ (relStack s.stack smp).length ∧ (relStack s.stack smp).length ≤ 3 ∧
      (relStack s.stack smp).head? = some Func.outerFunction ∧
      (relStack s.stack smp).map Func.level = List.range' 1 (relStack s.stack smp).length ∧
      (smp.action.isLeafStep = true →
        (relStack s.stack smp).length = 3 ∧
        (relStack s.stack smp =
            [Func.outerFunction, Func.middleFunctionA, Func.innerFunctionA1] ∨
          relStack s.stack smp =
            [Func.outerFunction, Func.middleFunctionA, Func.innerFunctionA2] ∨
          relStack s.stack smp =
            [Func.outerFunction, Func.middleFunctionB, Func.innerFunctionB1]))) ∧
    (∀ f g, callsIn s.stack (performed s (outerFunction w s)) f g ↔
      (f = Func.outerFunction ∧ g = Func.middleFunctionA) ∨
      (f = Func.outerFunction ∧ g = Func.middleFunctionB) ∨
      (f = Func.middleFunctionA ∧ g = Func.innerFunctionA1) ∨
      (f = Func.middleFunctionA ∧ g = Func.innerFunctionA2) ∨
      (f = Func.middleFunctionB ∧ g = Func.innerFunctionB1)) ∧
    (∀ f g, callsIn s.stack (performed s (outerFunction w s)) f g →
      f ≠ g ∧ f.level < g.level) := by
  rw [outerFunction_eq, performed_record]
  refine ⟨?_, callsIn_outer w s.stack, ?_⟩
  · intro smp hmem
    obtain ⟨hstack, hshape, -⟩ := outerSamples_shape w s.stack smp hmem
    refine ⟨hstack, ?_⟩
    rcases hshape with ⟨hleaf, h | h | h⟩ | ⟨hleaf, h | h | h⟩ <;>
      simp [h, hleaf, Func.level, List.range']
  · intro f g h
    rcases (callsIn_outer w s.stack f g).1 h with
      ⟨rfl, rfl⟩ | ⟨rfl, rfl⟩ | ⟨rfl, rfl⟩ | ⟨rfl, rfl⟩ | ⟨rfl, rfl⟩ <;>
      exact ⟨by decide, by decide⟩

/-- C9: every run of outerFunction terminates normally and never fails. The function is total;
it returns to its caller (its last step is its own return, the stack is as before, no exit
status is set) and changes nothing in the state but the record of its steps. Each leaf runs
its loop body for the loop-variable values 0, 1, ..., bound - 1, once each and in order, and
changes nothing else either. One run executes 5 x 10,000,000 + 5 x 50,000,000 +
3 x 100,000,000 = 600,000,000 loop iterations. -/
theorem outerFunction_terminates (w : Nat) (s : State) :
    outerFunction w s = { s with trace := s.trace ++ performed s (outerFunction w s) } ∧
    (outerFunction w s).stack = s.stack ∧
    (outerFunction w s).exitCode = s.exitCode ∧
    (performed s (outerFunction w s)).getLast? =
      some ⟨s.stack ++ [Func.outerFunction], Action.leave Func.outerFunction⟩ ∧
    innerFunctionA1 w s = { s with trace := s.trace ++ performed s (innerFunctionA1 w s) } ∧
    innerFunctionA2 w s = { s with trace := s.trace ++ performed s (innerFunctionA2 w s) } ∧
    innerFunctionB1 w s = { s with trace := s.trace ++ performed s (innerFunctionB1 w s) } ∧
    iterIndices (performed s (innerFunctionA1 w s)) = List.range 10000000 ∧
    iterIndices (performed s (innerFunctionA2 w s)) = List.range 50000000 ∧
    iterIndices (performed s (innerFunctionB1 w s)) = List.range 100000000 ∧
    iterations (performed s (outerFunction w s)) =
      5 * 10000000 + 5 * 50000000 + 3 * 100000000 ∧
    iterations (performed s (outerFunction w s)) = 600000000 := by
  simp only [outerFunction_eq, innerFunctionA1_eq, innerFunctionA2_eq, innerFunctionB1_eq,
    performed_record, iterations_outer]
  refine ⟨rfl, rfl, rfl, callSamples_getLast _ _ _, rfl, rfl, rfl, iterIndices_leaf _ _ _ _,
    iterIndices_leaf _ _ _ _, iterIndices_leaf _ _ _ _, by norm_num, trivial⟩

/-! ## The workload: the product computed by the leaf loops -/

/-- C10 (amended): in a run of outerFunction every loop-body execution of a leaf has a loop
variable 0 <= i < 100,000,000 (which itself fits in 32 bits). With a 64-bit `int` the product
i * i is below 2^63 and the value computed is i * i: the multiplication never wraps. With a
32-bit `int` the value computed is i * i exactly for i < 46341 and differs from i * i from
i = 46341 on; it is then the two's-complement value of the product, the one integer v with
-2^31 <= v < 2^31 that agrees with i * i modulo 2^32, namely
((i * i + 2^31) mod 2^32) - 2^31, and not the non-negative residue i * i mod 2^32. -/
theorem square_wraps_only_in_32_bits (s : State) :
    (∀ smp ∈ performed s (outerFunction 64 s), ∀ i v, smp.action = Action.iter i v →
      i < 100000000 ∧ (i : Int) < 2 ^ 31 ∧ (i : Int) * i < 2 ^ 63 ∧ v = (i : Int) * i) ∧
    (∀ smp ∈ performed s (outerFunction 32 s), ∀ i v, smp.action = Action.iter i v →
      i < 100000000 ∧ (i : Int) < 2 ^ 31 ∧ (v = (i : Int) * i ↔ i < 46341) ∧
        -2 ^ 31 ≤ v ∧ v < 2 ^ 31 ∧
        v % 2 ^ 32 = ((i : Int) * i) % 2 ^ 32 ∧
        v = ((i : Int) * i + 2 ^ 31) % 2 ^ 32 - 2 ^ 31) ∧
    (∀ v2 : Int, ∀ x : Int, -2 ^ 31 ≤ v2 → v2 < 2 ^ 31 → v2 % 2 ^ 32 = x % 2 ^ 32 →
      v2 = wrapInt 32 x) ∧
    (∃ smp ∈ performed s (outerFunction 32 s),
      smp.action = Action.iter 46341 (-2147479015)) := by
  simp only [outerFunction_eq, performed_record]
  have h31 : (2 : Int) ^ 31 = 2147483648 := by norm_num
  have h32 : (2 : Int) ^ 32 = 4294967296 := by norm_num
  have h63 : (2 : Int) ^ 63 = 9223372036854775808 := by norm_num
  refine ⟨?_, ?_, ?_, ?_⟩
  · intro smp hmem i v hact
    obtain ⟨hi, hv⟩ := outerSamples_iter 64 s.stack smp hmem i v hact
    rw [hv, mulInt]
    obtain ⟨h0, h1⟩ := square_bounds i hi
    have hi2 : (i : Int) < 100000000 := by exact_mod_cast hi
    refine ⟨hi, by omega, by omega, ?_⟩
    exact wrapInt_64 _ h0 (by omega)
  · intro smp hmem i v hact
    obtain ⟨hi, hv⟩ := outerSamples_iter 32 s.stack smp hmem i v hact
    rw [hv, mulInt]
    have hi2 : (i : Int) < 100000000 := by exact_mod_cast hi
    obtain ⟨hlo, hhi⟩ := wrapInt_32_range ((i : Int) * i)
    refine ⟨hi, by omega, ?_, by omega, by omega, ?_, ?_⟩
    · constructor
      · intro h
        by_contra hge
        exact wrapInt_32_large _ (by have := square_ge i (by omega); omega) h
      · intro h
        exact wrapInt_32_small _ (square_bounds i hi).1 (square_lt i h)
    · rw [h32]
      exact wrapInt_32_emod ((i : Int) * i)
    · rw [h31, h32]
      unfold wrapInt
      norm_num
  · intro v2 x hlo hhi hmod
    obtain ⟨hlo2, hhi2⟩ := wrapInt_32_range x
    have hmod2 := wrapInt_32_emod x
    rw [h32] at hmod
    omega
  · refine ⟨_, mem_outerSamples_iter 32 s.stack 46341 (by norm_num), ?_⟩
    show Action.iter 46341 (mulInt 32 ((46341 : Nat) : Int) ((46341 : Nat) : Int)) = _
    rw [show ((46341 : Nat) : Int) = 46341 from rfl, mulInt_32_at_46341]

/-- C10 as stated fails: in the run of outerFunction from the initial state with a 32-bit
`int`, the loop of innerFunctionA1 computes at i = 46341 the value -2147479015, which is
neither i * i = 2147488281 nor i * i mod 2^32 = 2147488281. -/
theorem square_32_bits_not_residue :
    (⟨[Func.outerFunction, Func.middleFunctionA, Func.innerFunctionA1],
      Action.iter 46341 (mulInt 32 46341 46341)⟩ : Sample) ∈
      performed State.init (outerFunction 32 State.init) ∧
    mulInt 32 46341 46341 = -2147479015 ∧
    ((46341 : Int) * 46341) % 2 ^ 32 = 2147488281 ∧
    mulInt 32 46341 46341 ≠ ((46341 : Int) * 46341) % 2 ^ 32 := by
  rw [outerFunction_eq, performed_record, mulInt_32_at_46341]
  refine ⟨?_, rfl, by norm_num, by norm_num⟩
  have h := mem_outerSamples_iter 32 State.init.stack 46341 (by norm_num)
  rw [show ((46341 : Nat) : Int) = 46341 from rfl, mulInt_32_at_46341] at h
  exact h

/-! ## The recorder: main -/

/-- C3: when os.Create fails, main writes the error message (with the path and the error) to
standard error and terminates through os.Exit with status 1. Those are its only steps after
the call of os.Create: pprof.StartCPUProfile is never called, no function other than main is
ever active (outerFunction and its callees run zero times, no leaf is invoked, no loop body
runs), the capture session stays idle, and no file was created and no profile written. -/
theorem sink_creation_failure (env : Env) (e : String) (hc : env.createErr = some e) :
    (run env).trace =
      [⟨[Func.main], Action.enter Func.main⟩,
        ⟨[Func.main], Action.create (profilePath env) (some e)⟩,
        ⟨[Func.main], Action.stderr
          ("could not create CPU profile at " ++ profilePath env ++ ": " ++ e ++ "\n")⟩,
        ⟨[Func.main], Action.exit 1⟩] ∧
    (run env).exitCode = some 1 ∧
    (∀ smp ∈ (run env).trace, ∀ err, smp.action ≠ Action.startCPUProfile err) ∧
    (∀ smp ∈ (run env).trace, smp.stack = [Func.main]) ∧
    (∀ smp ∈ (run env).trace, ∀ f, smp.action = Action.enter f → f = Func.main) ∧
    iterations (run env).trace = 0 ∧
    leafEvents (run env).trace = [] ∧
    (run env).capture = Capture.idle ∧
    (run env).fileCreated = false ∧
    (run env).sinkOpen = false ∧
    (run env).artifact = false := by
  rw [run_create_fails env e hc]
  simp [State.init, iterations, leafEvents, Action.isIter, Action.isLeafOrPause, Func.isLeaf]

/-- Witness of C3 in an environment where os.Create fails. -/
theorem sink_creation_failure_witness :
    envCreateFails.createErr = some "no such file or directory" ∧
    (run envCreateFails).exitCode = some 1 ∧
    (run envCreateFails).fileCreated = false ∧
    (run envCreateFails).artifact = false :=
  have h := sink_creation_failure envCreateFails "no such file or directory" rfl
  ⟨rfl, h.2.1, h.2.2.2.2.2.2.2.2.1, h.2.2.2.2.2.2.2.2.2.2⟩

/-- C4: when os.Create succeeds and pprof.StartCPUProfile fails, main writes the error message
to standard error and terminates at once through os.Exit with status 1; no function other
than main is ever active, no leaf is invoked and no loop body runs. And in every environment
the exit status of the process is 0 if and only if both os.Create and
pprof.StartCPUProfile succeed; otherwise it is 1. -/
theorem capture_start_failure (env : Env) :
    (∀ e, env.createErr = none → env.startErr = some e →
      (run env).trace =
        [⟨[Func.main], Action.enter Func.main⟩,
          ⟨[Func.main], Action.create (profilePath env) none⟩,
          ⟨[Func.main], Action.startCPUProfile (some e)⟩,
          ⟨[Func.main], Action.stderr ("could not start CPU profile: " ++ e ++ "\n")⟩,
          ⟨[Func.main], Action.exit 1⟩] ∧
      (run env).exitCode = some 1 ∧
      (∀ smp ∈ (run env).trace, smp.stack = [Func.main]) ∧
      (∀ smp ∈ (run env).trace, ∀ f, smp.action = Action.enter f → f = Func.main) ∧
      iterations (run env).trace = 0 ∧
      leafEvents (run env).trace = [] ∧
      (run env).capture = Capture.idle ∧
      (run env).artifact = false) ∧
    ((run env).exitCode = some 0 ↔ env.createErr = none ∧ env.startErr = none) ∧
    ((run env).exitCode = some 0 ∨ (run env).exitCode = some 1) := by
  refine ⟨?_, run_exitCode env⟩
  intro e hc hs
  rw [run_start_fails env e hc hs]
  simp [State.init, iterations, leafEvents, Action.isIter, Action.isLeafOrPause, Func.isLeaf]

/-- Witness of C4 in an environment where pprof.StartCPUProfile fails. -/
theorem capture_start_failure_witness :
    envStartFails.createErr = none ∧
    envStartFails.startErr = some "cpu profiling already in use" ∧
    (run envStartFails).exitCode = some 1 ∧
    leafEvents (run envStartFails).trace = [] :=
  have h := (capture_start_failure envStartFails).1 "cpu profiling already in use" rfl rfl
  ⟨rfl, rfl, h.2.1, h.2.2.2.2.2.1⟩

/-- On the path on which main returns (exit status 0, which happens exactly when the sink was
opened and capture was started) the deferred f.Close is executed exactly once, right after
pprof.StopCPUProfile and before main returns and the process exits, and the handle is closed
at exit. -/
theorem sink_closed_on_normal_exit (env : Env) (h : (run env).exitCode = some 0) :
    (Action.create (profilePath env) none) ∈ (run env).trace.map Sample.action ∧
    ((run env).trace.map Sample.action).count Action.close = 1 ∧
    [Action.stopCPUProfile, Action.close, Action.leave Func.main, Action.exit 0] <:+
      (run env).trace.map Sample.action ∧
    (run env).sinkOpen = false := by
  obtain ⟨hc, hs⟩ := (run_exitCode env).1.1 h
  rw [run_success env hc hs]
  refine ⟨by simp, ?_, ?_, rfl⟩
  · simp only [List.map_append, List.count_append,
      count_action_outer env.intSize [Func.main] Action.close rfl]
    simp [List.count_cons]
  · refine ⟨List.map Sample.action
      ([⟨[Func.main], Action.enter Func.main⟩,
          ⟨[Func.main], Action.create (profilePath env) none⟩,
          ⟨[Func.main], Action.startCPUProfile none⟩,
          ⟨[Func.main], Action.stdout ("Starting the complex function..." ++ "\n")⟩] ++
        outerSamples env.intSize [Func.main]) ++
      [Action.stdout ("Profiling finished. Profile saved to " ++ profilePath env ++ "\n")],
      ?_⟩
    simp

/-- C5, the code at the input where it misses the guarantee: when os.Create succeeds and
pprof.StartCPUProfile fails, the sink was opened (the file exists, its handle is open) and
the process terminates with status 1, but f.Close is never executed. The call was deferred
before the check, and os.Exit does not run deferred calls: it is still pending at exit, the
handle is still open and the file is left without profile data. The whole run is: enter
main, create, failed start, message on standard error, exit 1. -/
theorem sink_not_closed_when_start_fails :
    (run envStartFails).trace.map Sample.action =
      [Action.enter Func.main, Action.create (profilePath envStartFails) none,
        Action.startCPUProfile (some "cpu profiling already in use"),
        Action.stderr ("could not start CPU profile: " ++ "cpu profiling already in use" ++
          "\n"),
        Action.exit 1] ∧
    (run envStartFails).exitCode = some 1 ∧
    Action.close ∉ (run envStartFails).trace.map Sample.action ∧
    (run envStartFails).deferred = [Deferred.fClose] ∧
    (run envStartFails).fileCreated = true ∧
    (run envStartFails).sinkOpen = true ∧
    (run envStartFails).artifact = false := by
  rw [run_start_fails envStartFails "cpu profiling already in use" rfl rfl]
  simp [State.init]

/-- C6: when os.Create and pprof.StartCPUProfile both succeed, the run of main is: create the
sink, start capture, the complete run of outerFunction, stop capture, close the sink, return,
exit with status 0. The recorder actions of the whole run are exactly create, start, stop,
close in this order; capture is started once and stopped once; the workload itself contains
no recorder action, so every one of its steps lies strictly between the start and the stop;
the stop, which flushes the profile, precedes the close. -/
theorem recorder_brackets_workload (env : Env) (hc : env.createErr = none)
    (hs : env.startErr = none) :
    (run env).trace =
      [⟨[Func.main], Action.enter Func.main⟩,
          ⟨[Func.main], Action.create (profilePath env) none⟩,
          ⟨[Func.main], Action.startCPUProfile none⟩,
          ⟨[Func.main], Action.stdout ("Starting the complex function..." ++ "\n")⟩] ++
        workloadRun env.intSize [Func.main] ++
        [⟨[Func.main], Action.stdout
            ("Profiling finished. Profile saved to " ++ profilePath env ++ "\n")⟩,
          ⟨[Func.main], Action.stopCPUProfile⟩,
          ⟨[Func.main], Action.close⟩,
          ⟨[Func.main], Action.leave Func.main⟩,
          ⟨[], Action.exit 0⟩] ∧
    recorderEvents (run env).trace =
      [Action.create (profilePath env) none, Action.startCPUProfile none,
        Action.stopCPUProfile, Action.close] ∧
    (∀ smp ∈ workloadRun env.intSize [Func.main], smp.action.isRecorder = false) ∧
    ((run env).trace.map Sample.action).count (Action.startCPUProfile none) = 1 ∧
    ((run env).trace.map Sample.action).count Action.stopCPUProfile = 1 ∧
    (leafEvents (workloadRun env.intSize [Func.main])).length = 16 ∧
    iterations (workloadRun env.intSize [Func.main]) = 600000000 ∧
    (run env).capture = Capture.flushed ∧
    (run env).artifact = true ∧
    (run env).sinkOpen = false ∧
    (run env).exitCode = some 0 := by
  rw [run_success env hc hs, workloadRun_eq]
  refine ⟨rfl, ?_, outerSamples_not_recorder _ _, ?_, ?_, ?_, iterations_outer _ _,
    rfl, rfl, rfl, rfl⟩
  · simp only [recorderEvents_append, recorderEvents_outer]
    simp [recorderEvents, Action.isRecorder]
  · simp only [List.map_append, List.count_append,
      count_action_outer env.intSize [Func.main] (Action.startCPUProfile none) rfl]
    simp [List.count_cons]
  · simp only [List.map_append, List.count_append,
      count_action_outer env.intSize [Func.main] Action.stopCPUProfile rfl]
    simp [List.count_cons]
  · rw [leafEvents_outer]
    rfl

/-- Witness of C6 in an environment where both calls succeed. -/
theorem recorder_brackets_workload_witness :
    envSuccess.createErr = none ∧ envSuccess.startErr = none ∧
    recorderEvents (run envSuccess).trace =
      [Action.create (profilePath envSuccess) none, Action.startCPUProfile none,
        Action.stopCPUProfile, Action.close] ∧
    (run envSuccess).exitCode = some 0 :=
  have h := recorder_brackets_workload envSuccess rfl rfl
  ⟨rfl, rfl, h.2.1, h.2.2.2.2.2.2.2.2.2.2⟩

end ProfilerApp
